import Mathlib

/-!
Verification development for the OCR/expense Telegram bot
(`bot_main.py`, `ocr_logic.py`, `note_processor.py`).

The Python sources are shallowly embedded below.  Python dictionaries (the
JSON objects produced by `json.loads` and consumed by the pipeline) are
modelled as association lists `List (String × Val)`; `Val` is the type of
JSON-like Python values.  External collaborators (the Gemini generation
calls, `json.loads`, the Google-Sheets append, the Telegram send, the photo
download) are oracles passed in explicitly: each is a function returning
`Except String _`, where `.error e` models the call raising an exception
with message `e`.  The user-visible and collaborator-visible behaviour of
the two bot handlers is captured as a trace of events (`Ev`).
-/

/-- A JSON-like Python value, as produced by `json.loads`. -/
inductive Val where
  | str : String → Val
  | num : Int → Val
  | arr : List Val → Val
  | obj : List (String × Val) → Val

/-- A Python dict with string keys, as an association list (keys produced by
`json.loads` are unique; no theorem below relies on uniqueness). -/
abbrev PyDict := List (String × Val)

/-- Python `d.get(k)` / `d[k]` lookup: the value stored at key `k`. -/
def dget (d : PyDict) (k : String) : Option Val :=
  match d.find? (fun kv => kv.1 == k) with
  | some kv => some kv.2
  | none => none

/-- The keys of a dict. -/
def dkeys (d : PyDict) : List String := d.map Prod.fst

/-- Python `{**a, **b}`: the keys of `a` in order, each mapped to the value in `b`
when `b` also binds the key, followed by the keys of `b` not bound in `a`.
This is the dict-merge used by both handlers in `bot_main.py`. -/
def dictMerge (a b : PyDict) : PyDict :=
  a.map (fun kv => (kv.1, (dget b kv.1).getD kv.2))
    ++ b.filter (fun kv => !(a.any (fun kv2 => kv2.1 == kv.1)))

mutual

/-- Python `repr` of a value (used by `str` on non-string values).  String
escaping inside `repr` is not modelled; no theorem depends on `repr` output. -/
def pyRepr : Val → String
  | .str s => "\x27" ++ s ++ "\x27"
  | .num n => toString n
  | .arr vs => "[" ++ pyReprItems vs ++ "]"
  | .obj kvs => "\x7b" ++ pyReprFields kvs ++ "\x7d"

/-- Comma-separated `repr`s of list elements. -/
def pyReprItems : List Val → String
  | [] => ""
  | [v] => pyRepr v
  | v :: rest => pyRepr v ++ ", " ++ pyReprItems rest

/-- Comma-separated `key: repr` pairs of a dict. -/
def pyReprFields : List (String × Val) → String
  | [] => ""
  | [kv] => "\x27" ++ kv.1 ++ "\x27: " ++ pyRepr kv.2
  | kv :: rest => "\x27" ++ kv.1 ++ "\x27: " ++ pyRepr kv.2 ++ ", " ++ pyReprFields rest

end

/-- Python `str(v)` as used by f-string interpolation: a string renders as
itself, anything else as its `repr`. -/
def pyStr : Val → String
  | .str s => s
  | v => pyRepr v

/-- Python `d.get(k, dflt)` followed by f-string interpolation of the result:
the stored value rendered with `str`, or the default string when absent. -/
def pyGet (d : PyDict) (k : String) (dflt : String) : String :=
  match dget d k with
  | some v => pyStr v
  | none => dflt

/-- Python `d.get(k, dflt)` keeping the value itself (used for the sheet row,
where the raw values are handed to the append call). -/
def pyGetV (d : PyDict) (k : String) (dflt : Val) : Val :=
  match dget d k with
  | some v => v
  | none => dflt

mutual

/-- JSON serialization of a value, modelling `json.dumps` (the `indent=2`
whitespace layout and string escaping are not modelled; the result only
feeds the enrichment prompt, whose exact text no claim depends on). -/
def jsonDumps : Val → String
  | .str s => "\"" ++ s ++ "\""
  | .num n => toString n
  | .arr vs => "[" ++ jsonDumpsItems vs ++ "]"
  | .obj kvs => "\x7b" ++ jsonDumpsFields kvs ++ "\x7d"

/-- Comma-separated serializations of array elements. -/
def jsonDumpsItems : List Val → String
  | [] => ""
  | [v] => jsonDumps v
  | v :: rest => jsonDumps v ++ ", " ++ jsonDumpsItems rest

/-- Comma-separated `"key": value` pairs of an object. -/
def jsonDumpsFields : List (String × Val) → String
  | [] => ""
  | [kv] => "\"" ++ kv.1 ++ "\": " ++ jsonDumps kv.2
  | kv :: rest => "\"" ++ kv.1 ++ "\": " ++ jsonDumps kv.2 ++ ", " ++ jsonDumpsFields rest

end

/-- Whitespace as recognised by Python `str.strip()`. -/
def isPySpace (c : Char) : Bool :=
  c == ' ' || c == '\t' || c == '\n' || c == '\r' || c == Char.ofNat 11 || c == Char.ofNat 12

/-- Python `str.strip()`: drop leading and trailing whitespace. -/
def pyStrip (s : String) : String :=
  ⟨((s.data.dropWhile isPySpace).reverse.dropWhile isPySpace).reverse⟩

/-- One fuel-indexed step list for `str.replace`: replace non-overlapping
occurrences of `pat` left to right (fuel = length of the list, enough for
every occurrence; structural recursion keeps the definition kernel-reducible). -/
def replaceFuel : Nat → List Char → List Char → List Char → List Char
  | 0, l, _, _ => l
  | _ + 1, [], _, _ => []
  | n + 1, c :: cs, pat, rep =>
    if pat ≠ [] && pat.isPrefixOf (c :: cs) then
      rep ++ replaceFuel n ((c :: cs).drop pat.length) pat rep
    else
      c :: replaceFuel n cs pat rep

/-- Python `s.replace(pat, rep)` (for the nonempty patterns used in the
source). -/
def strReplace (s pat rep : String) : String :=
  ⟨replaceFuel s.data.length s.data pat.data rep.data⟩

/-- `pat` occurs as a contiguous segment of `l`. -/
def containsSeg : List Char → List Char → Bool
  | l, pat =>
    match l with
    | [] => pat.isEmpty
    | _ :: cs => pat.isPrefixOf l || containsSeg cs pat

/-- `needle` occurs as a contiguous substring of `hay`. -/
def strContains (hay needle : String) : Bool :=
  containsSeg hay.data needle.data

/-! ## Configuration and events -/

/-- The environment-derived configuration of `ocr_logic.py` (lines 27–33):
`TELEGRAM_BOT_TOKEN`, `TELEGRAM_CHAT_ID` and `GOOGLE_SHEET_ID` read from
`config.env`.  Credential loading itself is out of scope; the values are
simply inputs of the embedding. -/
structure Config where
  telegramBotToken : String
  telegramChatId : String
  googleSheetId : String

/-- Observable events of one request: replies to the originating chat
(`update.message.reply_text`), the generation-collaborator calls made by the
two extractors, the successful spreadsheet append with its row, the Telegram
send to an explicit chat id, and console logs of errors (informational
status prints are not traced). -/
inductive Ev where
  | reply : String → String → Ev
  | genCall : String → Ev
  | ocrGenCall : String → List Nat → Ev
  | sheetAppend : List Val → Ev
  | sendTelegram : String → String → Ev
  | consoleLog : String → Ev

/-- The collaborator oracles of one request: outcomes of the three Gemini
calls, of `json.loads`, of the Sheets append and of the Telegram send.
`.error e` models the library call raising an exception rendered as `e`. -/
structure Collab where
  noteGen : String → Except String String
  ocrGen : List Nat → Except String String
  insightsGen : String → Except String String
  loads : String → Except String PyDict
  sheets : List Val → Except String Unit
  tg : String → String → Except String Unit

/-! ## note_processor.py -/

/-- Opening sentence of the note-conversion prompt
(`note_processor.py` lines 78–91). -/
def notePromptIntro : String :=
  "\n        You are an expert data entry assistant. Analyze the following unstructured shopping note and convert it into a structured receipt format based on the provided JSON schema.\n\n        "

/-- Start of the reference-date policy line, up to the interpolated date. -/
def notePolicyDatePre : String := "- Today\x27s date is "

/-- Rest of the reference-date policy line after the interpolated date. -/
def notePolicyDatePost : String := ". Use this if no other date is mentioned."

/-- The vendor-alias inference policy line of the note prompt. -/
def notePolicyVendor : String :=
  "- Infer the vendor if possible (e.g., \x27SM\x27 means \x27SM Supermarket\x27)."

/-- The total-summation inference policy line of the note prompt. -/
def notePolicyTotal : String :=
  "- Calculate the total by summing the item amounts if it\x27s not stated."

/-- The quantity-default inference policy line of the note prompt. -/
def notePolicyQty : String :=
  "- Assume a quantity of 1 for items unless specified otherwise."

/-- Glue between the date policy line and the vendor policy line (the
currency context line sits between them). -/
def notePromptMid0 : String :=
  "\n        - The user is in the Philippines, so prices are in PHP.\n        "

/-- Glue between the vendor and total policy lines. -/
def notePromptMid1 : String := "\n        "

/-- Glue between the total and quantity policy lines. -/
def notePromptMid2 : String := "\n        "

/-- Glue between the quantity policy line and the interpolated note. -/
def notePromptMid3 : String :=
  "\n\n        Here is the note:\n        ---\n        "

/-- Trailing part of the note prompt after the interpolated note. -/
def notePromptPost : String := "\n        ---\n        "

/-- The full prompt built by `convert_note_to_receipt` from the ambient
current date (`today_date = datetime.now().strftime("%Y-%m-%d")`) and the
note text of the user (`note_processor.py` lines 74–91). -/
def notePrompt (today_date note_text : String) : String :=
  notePromptIntro ++
    (notePolicyDatePre ++ today_date ++ notePolicyDatePost) ++
    notePromptMid0 ++ notePolicyVendor ++ notePromptMid1 ++ notePolicyTotal ++
    notePromptMid2 ++ notePolicyQty ++ notePromptMid3 ++ note_text ++ notePromptPost

/-- Console-log prefix printed by `convert_note_to_receipt` before
re-raising (`note_processor.py` line 100). -/
def noteProcErrPre : String := "Error during Gemini API call: "

/-- `note_processor.convert_note_to_receipt(note_text)`: build the prompt
from the ambient current date `now` and the note, call the schema-constrained
generation collaborator, parse its response with `json.loads`, and return the
parsed dict; any failure of the call or of parsing is printed and re-raised.
Returns the emitted events together with the Python return/raise outcome. -/
def convert_note_to_receipt (gen : String → Except String String)
    (loads : String → Except String PyDict) (now note_text : String) :
    List Ev × Except String PyDict :=
  let prompt := notePrompt now note_text
  match gen prompt with
  | .error e => ([Ev.genCall prompt, Ev.consoleLog (noteProcErrPre ++ e)], .error e)
  | .ok text =>
    match loads text with
    | .error e => ([Ev.genCall prompt, Ev.consoleLog (noteProcErrPre ++ e)], .error e)
    | .ok d => ([Ev.genCall prompt], .ok d)

/-! ## ocr_logic.py -/

/-- The fixed OCR prompt of `process_receipt_image` (`ocr_logic.py` line 71). -/
def ocrPrompt : String :=
  "Analyze this receipt image and extract the vendor name, date, line items, and the final total amount. Format the output according to the provided JSON schema."

/-- Console-log prefix printed by `process_receipt_image` before re-raising
(`ocr_logic.py` line 76). -/
def ocrErrPre : String := "Error during Gemini API OCR call: "

/-- `ocr_logic.process_receipt_image(image_bytes)`: call the
schema-constrained generation collaborator on the OCR prompt plus the image
and return the raw response text; any failure (including image decode,
folded into the oracle outcome) is printed and re-raised. -/
def process_receipt_image (ocrGen : List Nat → Except String String)
    (image_bytes : List Nat) : List Ev × Except String String :=
  match ocrGen image_bytes with
  | .ok t => ([Ev.ocrGenCall ocrPrompt image_bytes], .ok t)
  | .error e =>
    ([Ev.ocrGenCall ocrPrompt image_bytes, Ev.consoleLog (ocrErrPre ++ e)], .error e)

/-- Leading part of the enrichment prompt (`ocr_logic.py` lines 85–94). -/
def insightsPromptPre : String :=
  "\n        Based on the following receipt data, please perform two tasks:\n        1.  Categorize this expense into one of the following common business categories: Food & Dining, Travel, Office Supplies, Transportation, Utilities, or Other.\n        2.  Write a concise, one-sentence expense memo describing the purchase.\n\n        Receipt Data:\n        "

/-- Trailing part of the enrichment prompt. -/
def insightsPromptPost : String :=
  "\n\n        Provide the output as a JSON object with two keys: \"category\" and \"memo\".\n        "

/-- The enrichment prompt built around the serialized receipt record. -/
def insightsPrompt (receipt_data : PyDict) : String :=
  insightsPromptPre ++ jsonDumps (Val.obj receipt_data) ++ insightsPromptPost

/-- The marker-stripping of `get_receipt_insights` (`ocr_logic.py` line 96):
`response.text.strip().replace("```json", "").replace("```", "")`. -/
def cleanInsightsResponse (s : String) : String :=
  strReplace (strReplace (pyStrip s) "```json" "") "```" ""

/-- The fixed fallback insights of `get_receipt_insights`
(`ocr_logic.py` line 102). -/
def fallbackInsights : PyDict :=
  [("category", Val.str "Uncategorized"), ("memo", Val.str "Could not generate memo.")]

/-- `ocr_logic.get_receipt_insights(receipt_data)`: call the generation
collaborator on the enrichment prompt, strip wrapper markers, parse with
`json.loads`, and return the parsed insights; any exception anywhere in the
body is swallowed and replaced by the fixed fallback pair.  The function is
total — it never raises. -/
def get_receipt_insights (gen : String → Except String String)
    (loads : String → Except String PyDict) (receipt_data : PyDict) : PyDict :=
  match gen (insightsPrompt receipt_data) with
  | .error _ => fallbackInsights
  | .ok text =>
    match loads (cleanInsightsResponse text) with
    | .error _ => fallbackInsights
    | .ok insights => insights

/-- The formatted Telegram summary of `send_telegram_message`
(`ocr_logic.py` lines 110–117), each field via `.get(key, "N/A")`. -/
def telegramMessage (receipt_data : PyDict) : String :=
  "🧾 *New Receipt Processed!*\n\n" ++
  "*Vendor:* " ++ pyGet receipt_data "vendor_name" "N/A" ++ "\n" ++
  "*Date:* " ++ pyGet receipt_data "receipt_date" "N/A" ++ "\n" ++
  "*Total:* " ++ pyGet receipt_data "total_amount" "N/A" ++ "\n" ++
  "*Category:* " ++ pyGet receipt_data "category" "N/A" ++ "\n\n" ++
  "*Memo:* _" ++ pyGet receipt_data "memo" "N/A" ++ "_"

/-- Console-log prefix of `send_telegram_message` on failure
(`ocr_logic.py` line 121). -/
def tgErrPre : String := "Error sending Telegram message: "

/-- `ocr_logic.send_telegram_message(receipt_data)`: send the formatted
summary to the configured `TELEGRAM_CHAT_ID`; any failure is printed and
swallowed.  The send event records the chat id and text handed to
`bot.send_message`. -/
def send_telegram_message (cfg : Config) (tg : String → String → Except String Unit)
    (receipt_data : PyDict) : List Ev :=
  let message := telegramMessage receipt_data
  match tg cfg.telegramChatId message with
  | .ok _ => [Ev.sendTelegram cfg.telegramChatId message]
  | .error e =>
    [Ev.sendTelegram cfg.telegramChatId message, Ev.consoleLog (tgErrPre ++ e)]

/-- The spreadsheet row of `log_to_google_sheet` (`ocr_logic.py` lines
135–141): the five fields in fixed order, each via `.get(key, "")`. -/
def rowData (receipt_data : PyDict) : List Val :=
  [pyGetV receipt_data "receipt_date" (Val.str ""),
   pyGetV receipt_data "vendor_name" (Val.str ""),
   pyGetV receipt_data "total_amount" (Val.str ""),
   pyGetV receipt_data "category" (Val.str ""),
   pyGetV receipt_data "memo" (Val.str "")]

/-- Console-log prefix of `log_to_google_sheet` on failure
(`ocr_logic.py` line 150). -/
def sheetErrPre : String := "Error logging to Google Sheet: "

/-- `ocr_logic.log_to_google_sheet(receipt_data)`: append the fixed-order
row to the configured sheet; any failure (credentials, service build, or the
append call itself, folded into the oracle outcome) is printed and
swallowed.  The function never raises to its caller. -/
def log_to_google_sheet (sheets : List Val → Except String Unit)
    (receipt_data : PyDict) : List Ev :=
  let row := rowData receipt_data
  match sheets row with
  | .ok _ => [Ev.sheetAppend row]
  | .error e => [Ev.consoleLog (sheetErrPre ++ e)]

/-! ## bot_main.py -/

/-- Acknowledgment reply of `handle_note` (`bot_main.py` line 32). -/
def noteAckText : String := "Note received! Converting to receipt format..."

/-- Apology reply of `handle_note` on failure (`bot_main.py` lines 50–52). -/
def noteApologyText : String :=
  "Sorry, I couldn\x27t understand that note. Please try formatting it a bit more clearly."

/-- Error print prefix of `handle_note` (`bot_main.py` line 48). -/
def noteHandlerErrPre : String := "An error occurred while processing your note: "

/-- Acknowledgment reply of `handle_receipt_photo` (`bot_main.py` line 59). -/
def photoAckText : String := "Receipt photo received! Processing..."

/-- Apology reply of `handle_receipt_photo` on failure
(`bot_main.py` lines 84–86). -/
def photoApologyText : String :=
  "Sorry, I couldn\x27t process that receipt photo. Please try again."

/-- Error print prefix of `handle_receipt_photo` (`bot_main.py` line 82). -/
def photoHandlerErrPre : String := "An error occurred while processing the photo: "

/-- `bot_main.handle_note(update, context)`: on a nonempty note, acknowledge,
convert the note (extraction), then enrich, merge, persist and notify; any
exception inside the `try` block (in practice only extraction can raise —
enrichment, persistence and notification swallow their own failures) is
printed and answered with the generic apology.  `now` is the ambient current
date read by `convert_note_to_receipt`; `chat` is the originating chat of
`update.message`, the target of `reply_text`. -/
def handle_note (c : Collab) (cfg : Config) (now chat note_text : String) : List Ev :=
  if note_text = "" then []
  else
    Ev.reply chat noteAckText ::
      (match convert_note_to_receipt c.noteGen c.loads now note_text with
       | (evs, .error e) =>
         evs ++ [Ev.consoleLog (noteHandlerErrPre ++ e), Ev.reply chat noteApologyText]
       | (evs, .ok receipt_data) =>
         let insights := get_receipt_insights c.insightsGen c.loads receipt_data
         let final_data := dictMerge receipt_data insights
         evs ++ log_to_google_sheet c.sheets final_data
             ++ send_telegram_message cfg c.tg final_data)

/-- `bot_main.handle_receipt_photo(update, context)`: on a message carrying a
photo, acknowledge, download the photo (`download` is the outcome of
`get_file`/`download_to_memory`), extract via OCR, decode the response with
`json.loads`, then enrich, merge, persist and notify; any exception inside
the `try` block is printed and answered with the generic apology. -/
def handle_receipt_photo (c : Collab) (cfg : Config) (chat : String)
    (hasPhoto : Bool) (download : Except String (List Nat)) : List Ev :=
  if !hasPhoto then []
  else
    Ev.reply chat photoAckText ::
      (match download with
       | .error e => [Ev.consoleLog (photoHandlerErrPre ++ e), Ev.reply chat photoApologyText]
       | .ok image_bytes =>
         match process_receipt_image c.ocrGen image_bytes with
         | (evs, .error e) =>
           evs ++ [Ev.consoleLog (photoHandlerErrPre ++ e), Ev.reply chat photoApologyText]
         | (evs, .ok extracted_data_json) =>
           match c.loads extracted_data_json with
           | .error e =>
             evs ++ [Ev.consoleLog (photoHandlerErrPre ++ e), Ev.reply chat photoApologyText]
           | .ok extracted_data =>
             let insights := get_receipt_insights c.insightsGen c.loads extracted_data
             let final_data := dictMerge extracted_data insights
             evs ++ log_to_google_sheet c.sheets final_data
                 ++ send_telegram_message cfg c.tg final_data)

/-! ## Trace predicates -/

/-- Is the event a successful spreadsheet append? -/
def isSheetAppend : Ev → Bool
  | .sheetAppend _ => true
  | _ => false

/-- Is the event a Telegram send (an invocation of `bot.send_message`)? -/
def isSendTelegram : Ev → Bool
  | .sendTelegram _ _ => true
  | _ => false

/-- Is the event a console log? -/
def isConsoleLog : Ev → Bool
  | .consoleLog _ => true
  | _ => false

/-- Is the event a generation-collaborator call of either extractor? -/
def isExtractorCall : Ev → Bool
  | .genCall _ => true
  | .ocrGenCall _ _ => true
  | _ => false

/-- Is the event a reply of the given text to the given chat? -/
def isReplyOf (chat text : String) : Ev → Bool
  | .reply ch t => ch == chat && t == text
  | _ => false

/-- The trace contains no spreadsheet append. -/
def sheetFree (tr : List Ev) : Bool := tr.all (fun e => !isSheetAppend e)

/-- The trace contains no Telegram send. -/
def sendFree (tr : List Ev) : Bool := tr.all (fun e => !isSendTelegram e)

/-- The Telegram sends of a trace, in order. -/
def sends (tr : List Ev) : List Ev := tr.filter isSendTelegram

/-- The extractor prompts issued on the text path, in order. -/
def notePrompts (tr : List Ev) : List String :=
  tr.filterMap (fun e => match e with | .genCall p => some p | _ => none)

/-- Scanning the trace left to right, an event satisfying `p` occurs strictly
before the first event satisfying `q` (vacuously true when no event satisfies
`q`). -/
def precedes (p q : Ev → Bool) : List Ev → Bool
  | [] => true
  | e :: tr => if q e then false else if p e then true else precedes p q tr

/-! ## Helper lemmas -/

theorem string_eq_of_data (a b : String) (h : a.data = b.data) : a = b := by
  cases a; cases b; exact congrArg String.mk h

theorem containsSeg_nil_pat (l : List Char) : containsSeg l [] = true := by
  cases l <;> simp [containsSeg, List.isPrefixOf]

theorem containsSeg_self_append (pat v : List Char) :
    containsSeg (pat ++ v) pat = true := by
  cases pat with
  | nil => simpa using containsSeg_nil_pat v
  | cons c cs =>
    have hpre : (c :: cs).isPrefixOf ((c :: cs) ++ v) = true := by
      rw [ List.isPrefixOf_iff_prefix]; exact List.prefix_append (c :: cs) v
    simp only [List.cons_append] at hpre ⊢
    simp [containsSeg, hpre]

theorem containsSeg_append_mid (u pat v : List Char) :
    containsSeg (u ++ pat ++ v) pat = true := by
  induction u with
  | nil => simpa using containsSeg_self_append pat v
  | cons c cs ih =>
    simp only [List.cons_append, containsSeg, Bool.or_eq_true]
    exact Or.inr ih

theorem strContains_of_split (hay needle u v : String)
    (h : hay = u ++ needle ++ v) : strContains hay needle = true := by
  have hd : hay.data = u.data ++ needle.data ++ v.data := by
    rw [h, String.data_append, String.data_append]
  rw [strContains, hd]
  exact containsSeg_append_mid u.data needle.data v.data

theorem precedes_cons_first (p q : Ev → Bool) (e : Ev) (tr : List Ev)
    (hp : p e = true) (hq : q e = false) : precedes p q (e :: tr) = true := by
  simp [precedes, hp, hq]

theorem dget_isSome_iff_mem_dkeys (d : PyDict) (k : String) :
    (dget d k).isSome = true ↔ k ∈ dkeys d := by
  rw [dget]
  cases hf : d.find? (fun kv => kv.1 == k) with
  | none =>
    constructor
    · intro h; simp at h
    · intro hk
      rw [dkeys, List.mem_map] at hk
      obtain ⟨kv, hkv, hfst⟩ := hk
      have h2 := List.find?_eq_none.mp hf kv hkv
      simp [hfst] at h2
  | some kv =>
    constructor
    · intro _
      have hmem := List.mem_of_find?_eq_some hf
      have hpred := List.find?_some hf
      rw [dkeys, List.mem_map]
      exact ⟨kv, hmem, by simpa using hpred⟩
    · intro _; simp

theorem find?_filter_of_imp {α : Type} (l : List α) (p q : α → Bool)
    (h : ∀ x, p x = true → q x = true) : (l.filter q).find? p = l.find? p := by
  induction l with
  | nil => rfl
  | cons x xs ih =>
    cases hq : q x with
    | true =>
      rw [List.filter_cons_of_pos hq]
      cases hp : p x with
      | true => simp [List.find?, hp]
      | false => simp [List.find?, hp, ih]
    | false =>
      have hp : p x = false := by
        cases hpx : p x with
        | true => rw [h x hpx] at hq; cases hq
        | false => rfl
      simp [List.filter_cons, hq, List.find?, hp, ih]

theorem dkeys_dictMerge_left (a b : PyDict) (k : String) (ha : k ∈ dkeys a) :
    k ∈ dkeys (dictMerge a b) := by
  rw [dictMerge, dkeys, List.map_append, List.mem_append]
  left
  rw [List.map_map]
  rw [dkeys] at ha
  simpa using ha

theorem dkeys_dictMerge_right (a b : PyDict) (k : String) (hb : k ∈ dkeys b) :
    k ∈ dkeys (dictMerge a b) := by
  by_cases ha : k ∈ dkeys a
  · exact dkeys_dictMerge_left a b k ha
  · rw [dictMerge, dkeys, List.map_append, List.mem_append]
    right
    rw [dkeys, List.mem_map] at hb
    obtain ⟨kv, hkv, hfst⟩ := hb
    have hany : a.any (fun kv2 => kv2.1 == kv.1) = false := by
      cases hA : a.any (fun kv2 => kv2.1 == kv.1) with
      | true =>
        rw [List.any_eq_true] at hA
        obtain ⟨kv2, hkv2, hbeq⟩ := hA
        exfalso
        apply ha
        rw [dkeys, List.mem_map]
        exact ⟨kv2, hkv2, by rw [← hfst]; exact (by simpa using hbeq)⟩
      | false => rfl
    rw [List.mem_map]
    refine ⟨kv, ?_, hfst⟩
    rw [List.mem_filter]
    exact ⟨hkv, by simp [hany]⟩

theorem dget_append (d1 d2 : PyDict) (k : String) :
    dget (d1 ++ d2) k = (dget d1 k).or (dget d2 k) := by
  simp only [dget, List.find?_append]
  cases d1.find? (fun kv => kv.1 == k) with
  | none => simp [Option.or]
  | some kv => simp [Option.or]

theorem dget_map_merge (a b : PyDict) (k : String) :
    dget (a.map (fun kv => (kv.1, (dget b kv.1).getD kv.2))) k
      = (dget a k).map (fun v => (dget b k).getD v) := by
  induction a with
  | nil => rfl
  | cons kv rest ih =>
    cases hk : (kv.1 == k) with
    | true =>
      have hk2 : kv.1 = k := by simpa using hk
      subst hk2
      simp [dget, List.find?_cons]
    | false =>
      simp only [List.map_cons, dget, List.find?_cons, hk]
      simpa [dget] using ih

theorem dget_filter_other (a b : PyDict) (k : String) (ha : k ∉ dkeys a) :
    dget (b.filter (fun kv => !(a.any (fun kv2 => kv2.1 == kv.1)))) k = dget b k := by
  have h : ∀ kv : String × Val, (kv.1 == k) = true →
      (!(a.any (fun kv2 => kv2.1 == kv.1))) = true := by
    intro kv hkv
    have hkk : kv.1 = k := by simpa using hkv
    cases hA : a.any (fun kv2 => kv2.1 == kv.1) with
    | true =>
      exfalso
      apply ha
      rw [List.any_eq_true] at hA
      obtain ⟨kv2, h2, hb⟩ := hA
      rw [dkeys, List.mem_map]
      exact ⟨kv2, h2, by rw [← hkk]; simpa using hb⟩
    | false => simp [hA]
  simp only [dget]
  rw [find?_filter_of_imp b (fun kv => kv.1 == k)
    (fun kv => !(a.any (fun kv2 => kv2.1 == kv.1))) h]

theorem dget_dictMerge_right (a b : PyDict) (k : String) (hb : k ∈ dkeys b) :
    dget (dictMerge a b) k = dget b k := by
  obtain ⟨w, hw⟩ := Option.isSome_iff_exists.mp ((dget_isSome_iff_mem_dkeys b k).mpr hb)
  rw [dictMerge, dget_append, dget_map_merge]
  by_cases ha : k ∈ dkeys a
  · obtain ⟨wa, hwa⟩ := Option.isSome_iff_exists.mp ((dget_isSome_iff_mem_dkeys a k).mpr ha)
    rw [hwa, hw]
    simp [Option.or]
  · have hnone : dget a k = none := by
      cases hda : dget a k with
      | none => rfl
      | some v => exact absurd ((dget_isSome_iff_mem_dkeys a k).mp (by simp [hda])) ha
    rw [hnone]
    simpa using dget_filter_other a b k ha

theorem pyGetV_eq_getD (d : PyDict) (k : String) (dflt : Val) :
    pyGetV d k dflt = (dget d k).getD dflt := by
  rw [pyGetV]; cases dget d k <;> rfl

/-! ## Claims -/

/-- Claim C1: for every input receipt record, `get_receipt_insights` never
raises (it is a total function of the collaborator outcomes): when the
generation call fails it returns exactly the fallback pair
`{category: "Uncategorized", memo: "Could not generate memo."}`, when the
cleaned response fails to parse it returns the same fallback pair, and on
parse success it returns exactly the parsed object. -/
theorem C1_enrichment_never_fails (gen : String → Except String String)
    (loads : String → Except String PyDict) (d : PyDict) :
    (∀ e, gen (insightsPrompt d) = .error e →
      get_receipt_insights gen loads d = fallbackInsights)
    ∧ (∀ t e, gen (insightsPrompt d) = .ok t →
        loads (cleanInsightsResponse t) = .error e →
        get_receipt_insights gen loads d = fallbackInsights)
    ∧ (∀ t i, gen (insightsPrompt d) = .ok t →
        loads (cleanInsightsResponse t) = .ok i →
        get_receipt_insights gen loads d = i) := by
  refine ⟨?_, ?_, ?_⟩ <;> intros <;> simp [get_receipt_insights, *]

/-- Generation oracle that always raises (witness input). -/
def wGenErr : String → Except String String := fun _ => .error "boom"

/-- Generation oracle that always answers `RESP` (witness input). -/
def wGenOk : String → Except String String := fun _ => .ok "RESP"

/-- `json.loads` oracle that always raises (witness input). -/
def wLoadsErr : String → Except String PyDict := fun _ => .error "JSONDecodeError"

/-- `json.loads` oracle that always parses to a fixed insights dict
(witness input). -/
def wLoadsOk : String → Except String PyDict :=
  fun _ => .ok [("category", Val.str "Travel"), ("memo", Val.str "Flight to Cebu.")]

theorem C1_enrichment_never_fails_witness :
    get_receipt_insights wGenErr wLoadsOk [] = fallbackInsights
    ∧ get_receipt_insights wGenOk wLoadsErr [] = fallbackInsights
    ∧ get_receipt_insights wGenOk wLoadsOk []
        = [("category", Val.str "Travel"), ("memo", Val.str "Flight to Cebu.")] :=
  ⟨(C1_enrichment_never_fails wGenErr wLoadsOk []).1 "boom" rfl,
   (C1_enrichment_never_fails wGenOk wLoadsErr []).2.1 "RESP" "JSONDecodeError" rfl rfl,
   (C1_enrichment_never_fails wGenOk wLoadsOk []).2.2 "RESP" _ rfl rfl⟩

/-- Claim C4: the merge `{**record, **insights}` yields a single flattened
mapping: every key of either operand is a key of the merge, and for a key
present in both the insight value takes precedence. -/
theorem C4_merge_precedence (a b : PyDict) (k : String) :
    ((k ∈ dkeys a ∨ k ∈ dkeys b) → k ∈ dkeys (dictMerge a b))
    ∧ (k ∈ dkeys a → k ∈ dkeys b → dget (dictMerge a b) k = dget b k) := by
  constructor
  · rintro (h | h)
    · exact dkeys_dictMerge_left a b k h
    · exact dkeys_dictMerge_right a b k h
  · intro _ hb
    exact dget_dictMerge_right a b k hb

/-- Record operand for the merge witness. -/
def wMergeA : PyDict := [("vendor_name", Val.str "SM Supermarket"), ("category", Val.str "old")]

/-- Insights operand for the merge witness. -/
def wMergeB : PyDict := [("category", Val.str "Food & Dining")]

theorem C4_merge_precedence_witness :
    "category" ∈ dkeys (dictMerge wMergeA wMergeB)
    ∧ dget (dictMerge wMergeA wMergeB) "category" = dget wMergeB "category" :=
  ⟨(C4_merge_precedence wMergeA wMergeB "category").1
      (Or.inl (by simp [wMergeA, dkeys])),
   (C4_merge_precedence wMergeA wMergeB "category").2
      (by simp [wMergeA, dkeys]) (by simp [wMergeB, dkeys])⟩

/-- Claim C5: whenever the append succeeds, the appended row is exactly the
five values `[receipt_date, vendor_name, total_amount, category, memo]` in
that fixed order, each `record.get(field, "")`. -/
theorem C5_row_fixed_order (sheets : List Val → Except String Unit) (d : PyDict)
    (h : sheets (rowData d) = .ok ()) :
    log_to_google_sheet sheets d
      = [Ev.sheetAppend
          [(dget d "receipt_date").getD (Val.str ""),
           (dget d "vendor_name").getD (Val.str ""),
           (dget d "total_amount").getD (Val.str ""),
           (dget d "category").getD (Val.str ""),
           (dget d "memo").getD (Val.str "")]] := by
  simp only [log_to_google_sheet, h]
  simp [rowData, pyGetV_eq_getD]

/-- Always-succeeding Sheets oracle (witness input). -/
def wSheetsOk : List Val → Except String Unit := fun _ => .ok ()

theorem C5_row_fixed_order_witness :
    log_to_google_sheet wSheetsOk [("vendor_name", Val.str "SM"), ("total_amount", Val.str "90")]
      = [Ev.sheetAppend
          [Val.str "", Val.str "SM", Val.str "90", Val.str "", Val.str ""]] :=
  C5_row_fixed_order wSheetsOk
    [("vendor_name", Val.str "SM"), ("total_amount", Val.str "90")] rfl

/-- Claim C10: the notification and persistence renderers are total over
arbitrary record mappings (both are plain total functions of the dict):
each of the five fields missing from the record is rendered as `N/A` in the
Telegram message and as the empty string in the spreadsheet row, and the row
always has exactly five entries. -/
theorem C10_renderers_default (d : PyDict) :
    ((dget d "vendor_name" = none →
        strContains (telegramMessage d) "*Vendor:* N/A" = true)
      ∧ (dget d "receipt_date" = none →
          strContains (telegramMessage d) "*Date:* N/A" = true)
      ∧ (dget d "total_amount" = none →
          strContains (telegramMessage d) "*Total:* N/A" = true)
      ∧ (dget d "category" = none →
          strContains (telegramMessage d) "*Category:* N/A" = true)
      ∧ (dget d "memo" = none →
          strContains (telegramMessage d) "*Memo:* _N/A" = true))
    ∧ ((rowData d).length = 5
      ∧ (dget d "receipt_date" = none → (rowData d).get? 0 = some (Val.str ""))
      ∧ (dget d "vendor_name" = none → (rowData d).get? 1 = some (Val.str ""))
      ∧ (dget d "total_amount" = none → (rowData d).get? 2 = some (Val.str ""))
      ∧ (dget d "category" = none → (rowData d).get? 3 = some (Val.str ""))
      ∧ (dget d "memo" = none → (rowData d).get? 4 = some (Val.str ""))) := by
  constructor
  · refine ⟨?_, ?_, ?_, ?_, ?_⟩
    · intro h
      apply strContains_of_split (telegramMessage d) _
        "🧾 *New Receipt Processed!*\n\n"
        ("\n" ++ "*Date:* " ++ pyGet d "receipt_date" "N/A" ++ "\n" ++
          "*Total:* " ++ pyGet d "total_amount" "N/A" ++ "\n" ++
          "*Category:* " ++ pyGet d "category" "N/A" ++ "\n\n" ++
          "*Memo:* _" ++ pyGet d "memo" "N/A" ++ "_")
      rw [show ("*Vendor:* N/A" : String) = "*Vendor:* " ++ "N/A" by decide]
      simp [telegramMessage, pyGet, h, String.append_assoc]
      rw [show ("🧾 *New Receipt Processed!*\n\n*Vendor:* N/A\n*Date:* " : String)
          = "🧾 *New Receipt Processed!*\n\n*Vendor:* N/A" ++ "\n*Date:* " by decide,
        String.append_assoc]
    · intro h
      apply strContains_of_split (telegramMessage d) _
        ("🧾 *New Receipt Processed!*\n\n" ++ "*Vendor:* " ++
          pyGet d "vendor_name" "N/A" ++ "\n")
        ("\n" ++ "*Total:* " ++ pyGet d "total_amount" "N/A" ++ "\n" ++
          "*Category:* " ++ pyGet d "category" "N/A" ++ "\n\n" ++
          "*Memo:* _" ++ pyGet d "memo" "N/A" ++ "_")
      rw [show ("*Date:* N/A" : String) = "*Date:* " ++ "N/A" by decide]
      simp [telegramMessage, pyGet, h, String.append_assoc]
      rw [show ("\n*Date:* N/A\n*Total:* " : String)
          = "\n*Date:* N/A" ++ "\n*Total:* " by decide, String.append_assoc]
    · intro h
      apply strContains_of_split (telegramMessage d) _
        ("🧾 *New Receipt Processed!*\n\n" ++ "*Vendor:* " ++
          pyGet d "vendor_name" "N/A" ++ "\n" ++
          "*Date:* " ++ pyGet d "receipt_date" "N/A" ++ "\n")
        ("\n" ++ "*Category:* " ++ pyGet d "category" "N/A" ++ "\n\n" ++
          "*Memo:* _" ++ pyGet d "memo" "N/A" ++ "_")
      rw [show ("*Total:* N/A" : String) = "*Total:* " ++ "N/A" by decide]
      simp [telegramMessage, pyGet, h, String.append_assoc]
      rw [show ("\n*Total:* N/A\n*Category:* " : String)
          = "\n*Total:* N/A" ++ "\n*Category:* " by decide, String.append_assoc]
    · intro h
      apply strContains_of_split (telegramMessage d) _
        ("🧾 *New Receipt Processed!*\n\n" ++ "*Vendor:* " ++
          pyGet d "vendor_name" "N/A" ++ "\n" ++
          "*Date:* " ++ pyGet d "receipt_date" "N/A" ++ "\n" ++
          "*Total:* " ++ pyGet d "total_amount" "N/A" ++ "\n")
        ("\n\n" ++ "*Memo:* _" ++ pyGet d "memo" "N/A" ++ "_")
      rw [show ("*Category:* N/A" : String) = "*Category:* " ++ "N/A" by decide]
      simp [telegramMessage, pyGet, h, String.append_assoc]
      rw [show ("\n*Category:* N/A\n\n*Memo:* _" : String)
          = "\n*Category:* N/A" ++ "\n\n*Memo:* _" by decide, String.append_assoc]
    · intro h
      apply strContains_of_split (telegramMessage d) _
        ("🧾 *New Receipt Processed!*\n\n" ++ "*Vendor:* " ++
          pyGet d "vendor_name" "N/A" ++ "\n" ++
          "*Date:* " ++ pyGet d "receipt_date" "N/A" ++ "\n" ++
          "*Total:* " ++ pyGet d "total_amount" "N/A" ++ "\n" ++
          "*Category:* " ++ pyGet d "category" "N/A" ++ "\n\n")
        "_"
      rw [show ("*Memo:* _N/A" : String) = "*Memo:* _" ++ "N/A" by decide]
      simp [telegramMessage, pyGet, h, String.append_assoc]
  · refine ⟨rfl, ?_, ?_, ?_, ?_, ?_⟩ <;>
      · intro h
        simp [rowData, pyGetV, h]

theorem C10_renderers_default_witness :
    (strContains (telegramMessage []) "*Vendor:* N/A" = true
      ∧ strContains (telegramMessage []) "*Date:* N/A" = true
      ∧ strContains (telegramMessage []) "*Total:* N/A" = true
      ∧ strContains (telegramMessage []) "*Category:* N/A" = true
      ∧ strContains (telegramMessage []) "*Memo:* _N/A" = true)
    ∧ ((rowData []).length = 5
      ∧ (rowData []).get? 0 = some (Val.str "")
      ∧ (rowData []).get? 1 = some (Val.str "")
      ∧ (rowData []).get? 2 = some (Val.str "")
      ∧ (rowData []).get? 3 = some (Val.str "")
      ∧ (rowData []).get? 4 = some (Val.str "")) :=
  ⟨⟨(C10_renderers_default []).1.1 rfl,
    (C10_renderers_default []).1.2.1 rfl,
    (C10_renderers_default []).1.2.2.1 rfl,
    (C10_renderers_default []).1.2.2.2.1 rfl,
    (C10_renderers_default []).1.2.2.2.2 rfl⟩,
   ⟨(C10_renderers_default []).2.1,
    (C10_renderers_default []).2.2.1 rfl,
    (C10_renderers_default []).2.2.2.1 rfl,
    (C10_renderers_default []).2.2.2.2.1 rfl,
    (C10_renderers_default []).2.2.2.2.2.1 rfl,
    (C10_renderers_default []).2.2.2.2.2.2 rfl⟩⟩

theorem sends_send_telegram_message (cfg : Config)
    (tg : String → String → Except String Unit) (d : PyDict) :
    sends (send_telegram_message cfg tg d)
      = [Ev.sendTelegram cfg.telegramChatId (telegramMessage d)] := by
  simp only [send_telegram_message]
  cases tg cfg.telegramChatId (telegramMessage d) <;>
    simp [sends, isSendTelegram]

theorem send_telegram_message_head (cfg : Config)
    (tg : String → String → Except String Unit) (d : PyDict) :
    ∃ rest, send_telegram_message cfg tg d
      = Ev.sendTelegram cfg.telegramChatId (telegramMessage d) :: rest := by
  simp only [send_telegram_message]
  cases tg cfg.telegramChatId (telegramMessage d) <;> exact ⟨_, rfl⟩

theorem sends_log_to_google_sheet (sheets : List Val → Except String Unit) (d : PyDict) :
    sends (log_to_google_sheet sheets d) = [] := by
  simp only [log_to_google_sheet]
  cases sheets (rowData d) <;> simp [sends, isSendTelegram]

theorem convert_evs_quiet (gen : String → Except String String)
    (loads : String → Except String PyDict) (now note : String) :
    sheetFree (convert_note_to_receipt gen loads now note).1 = true
    ∧ sendFree (convert_note_to_receipt gen loads now note).1 = true := by
  simp only [convert_note_to_receipt]
  cases hg : gen (notePrompt now note) with
  | error e => simp [hg, sheetFree, sendFree, isSheetAppend, isSendTelegram]
  | ok t =>
    cases hl : loads t <;>
      simp [hg, hl, sheetFree, sendFree, isSheetAppend, isSendTelegram]

theorem convert_ok_evs (gen : String → Except String String)
    (loads : String → Except String PyDict) (now note : String)
    (evs : List Ev) (rd : PyDict)
    (h : convert_note_to_receipt gen loads now note = (evs, .ok rd)) :
    evs = [Ev.genCall (notePrompt now note)] := by
  simp only [convert_note_to_receipt] at h
  cases hg : gen (notePrompt now note) with
  | error e => simp [hg] at h
  | ok t =>
    cases hl : loads t with
    | error e2 => simp [hg, hl] at h
    | ok d2 => simp [hg, hl] at h; exact h.1.symm

/-- Claim C6: in both handlers the "processing…" acknowledgment is the very
first event of the trace of the request, and therefore precedes the first call to
the generation collaborator of the extractor in every trace in which such a call
occurs. -/
theorem C6_ack_before_extraction (c : Collab) (cfg : Config)
    (now chat note : String) (hasPhoto : Bool) (download : Except String (List Nat)) :
    (note ≠ "" →
      (handle_note c cfg now chat note).head? = some (Ev.reply chat noteAckText))
    ∧ precedes (isReplyOf chat noteAckText) isExtractorCall
        (handle_note c cfg now chat note) = true
    ∧ (hasPhoto = true →
      (handle_receipt_photo c cfg chat hasPhoto download).head?
        = some (Ev.reply chat photoAckText))
    ∧ precedes (isReplyOf chat photoAckText) isExtractorCall
        (handle_receipt_photo c cfg chat hasPhoto download) = true := by
  refine ⟨?_, ?_, ?_, ?_⟩
  · intro hnote
    rw [handle_note, if_neg hnote]
    rfl
  · by_cases hnote : note = ""
    · simp [handle_note, hnote, precedes]
    · rw [handle_note, if_neg hnote]
      apply precedes_cons_first
      · simp [isReplyOf]
      · rfl
  · intro hp
    rw [handle_receipt_photo.eq_def, hp]
    rfl
  · cases hp : hasPhoto with
    | false => simp [handle_receipt_photo.eq_def, precedes]
    | true =>
      rw [handle_receipt_photo.eq_def]
      apply precedes_cons_first
      · simp [isReplyOf]
      · rfl

/-- Collaborator set whose note-path generation call fails with a network
error and whose OCR call fails as well (used as a concrete request in
several witnesses). -/
def cFailGen : Collab where
  noteGen := fun _ => .error "network unavailable"
  ocrGen := fun _ => .error "network unavailable"
  insightsGen := fun _ => .error "unused"
  loads := fun _ => .error "unused"
  sheets := fun _ => .ok ()
  tg := fun _ _ => .ok ()

/-- A concrete configuration (used in witnesses). -/
def cfg0 : Config := ⟨"token", "777", "sheet"⟩

theorem C6_ack_before_extraction_witness :
    (handle_note cFailGen cfg0 "2024-03-01" "chatA" "Bought milk 50 at SM").head?
        = some (Ev.reply "chatA" noteAckText)
    ∧ precedes (isReplyOf "chatA" noteAckText) isExtractorCall
        (handle_note cFailGen cfg0 "2024-03-01" "chatA" "Bought milk 50 at SM") = true
    ∧ (handle_receipt_photo cFailGen cfg0 "chatA" true (.ok [0, 1])).head?
        = some (Ev.reply "chatA" photoAckText)
    ∧ precedes (isReplyOf "chatA" photoAckText) isExtractorCall
        (handle_receipt_photo cFailGen cfg0 "chatA" true (.ok [0, 1])) = true :=
  ⟨(C6_ack_before_extraction cFailGen cfg0 "2024-03-01" "chatA" "Bought milk 50 at SM"
      true (.ok [0, 1])).1 (by decide),
   (C6_ack_before_extraction cFailGen cfg0 "2024-03-01" "chatA" "Bought milk 50 at SM"
      true (.ok [0, 1])).2.1,
   (C6_ack_before_extraction cFailGen cfg0 "2024-03-01" "chatA" "Bought milk 50 at SM"
      true (.ok [0, 1])).2.2.1 rfl,
   (C6_ack_before_extraction cFailGen cfg0 "2024-03-01" "chatA" "Bought milk 50 at SM"
      true (.ok [0, 1])).2.2.2⟩

/-- Extraction on the photo path fails: the download raised, the OCR
generation call raised, or its response text fails to decode. -/
def photoExtractionFailed (c : Collab) (download : Except String (List Nat)) : Bool :=
  match download with
  | .error _ => true
  | .ok bs =>
    match (process_receipt_image c.ocrGen bs).2 with
    | .error _ => true
    | .ok txt => !(c.loads txt).isOk

/-- Claim C2: on either path, when extraction fails (the extractor raises or
its output cannot be decoded), the handler replies with the generic apology,
prints the underlying error, and stops: the trace contains no spreadsheet
append and no Telegram result message. -/
theorem C2_extraction_failure_aborts (c : Collab) (cfg : Config)
    (now chat note : String) (hasPhoto : Bool) (download : Except String (List Nat)) :
    (note ≠ "" →
      (convert_note_to_receipt c.noteGen c.loads now note).2.isOk = false →
      Ev.reply chat noteApologyText ∈ handle_note c cfg now chat note
      ∧ (∃ m, Ev.consoleLog m ∈ handle_note c cfg now chat note)
      ∧ sheetFree (handle_note c cfg now chat note) = true
      ∧ sendFree (handle_note c cfg now chat note) = true)
    ∧ (hasPhoto = true →
      photoExtractionFailed c download = true →
      Ev.reply chat photoApologyText ∈ handle_receipt_photo c cfg chat hasPhoto download
      ∧ (∃ m, Ev.consoleLog m ∈ handle_receipt_photo c cfg chat hasPhoto download)
      ∧ sheetFree (handle_receipt_photo c cfg chat hasPhoto download) = true
      ∧ sendFree (handle_receipt_photo c cfg chat hasPhoto download) = true) := by
  constructor
  · intro hnote hfail
    rw [handle_note, if_neg hnote]
    cases hg : c.noteGen (notePrompt now note) with
    | error e =>
      have hconv : convert_note_to_receipt c.noteGen c.loads now note
          = ([Ev.genCall (notePrompt now note),
              Ev.consoleLog (noteProcErrPre ++ e)], .error e) := by
        simp [convert_note_to_receipt, hg]
      rw [hconv]
      refine ⟨by simp, ⟨noteHandlerErrPre ++ e, by simp⟩,
        by simp [sheetFree, isSheetAppend], by simp [sendFree, isSendTelegram]⟩
    | ok t =>
      cases hl : c.loads t with
      | error e =>
        have hconv : convert_note_to_receipt c.noteGen c.loads now note
            = ([Ev.genCall (notePrompt now note),
                Ev.consoleLog (noteProcErrPre ++ e)], .error e) := by
          simp [convert_note_to_receipt, hg, hl]
        rw [hconv]
        refine ⟨by simp, ⟨noteHandlerErrPre ++ e, by simp⟩,
          by simp [sheetFree, isSheetAppend], by simp [sendFree, isSendTelegram]⟩
      | ok d =>
        exfalso
        have hok : (convert_note_to_receipt c.noteGen c.loads now note).2 = .ok d := by
          simp [convert_note_to_receipt, hg, hl]
        rw [hok] at hfail
        simp [Except.isOk, Except.toBool] at hfail
  · intro hp hfail
    rw [handle_receipt_photo.eq_def, hp]
    cases hd : download with
    | error e =>
      refine ⟨by simp, ⟨photoHandlerErrPre ++ e, by simp⟩,
        by simp [sheetFree, isSheetAppend], by simp [sendFree, isSendTelegram]⟩
    | ok bs =>
      cases hocr : c.ocrGen bs with
      | error e =>
        have hpr : process_receipt_image c.ocrGen bs
            = ([Ev.ocrGenCall ocrPrompt bs,
                Ev.consoleLog (ocrErrPre ++ e)], .error e) := by
          simp [process_receipt_image, hocr]
        refine ⟨by simp [hpr], ⟨photoHandlerErrPre ++ e, by simp [hpr]⟩,
          by simp [hpr, sheetFree, isSheetAppend],
          by simp [hpr, sendFree, isSendTelegram]⟩
      | ok txt =>
        have hpr : process_receipt_image c.ocrGen bs
            = ([Ev.ocrGenCall ocrPrompt bs], .ok txt) := by
          simp [process_receipt_image, hocr]
        cases hl : c.loads txt with
        | error e =>
          refine ⟨by simp [hpr, hl], ⟨photoHandlerErrPre ++ e, by simp [hpr, hl]⟩,
            by simp [hpr, hl, sheetFree, isSheetAppend],
            by simp [hpr, hl, sendFree, isSendTelegram]⟩
        | ok ed =>
          exfalso
          simp only [photoExtractionFailed, hd] at hfail
          rw [hpr] at hfail
          simp [hl, Except.isOk, Except.toBool] at hfail

theorem C2_extraction_failure_aborts_witness :
    (Ev.reply "chatA" noteApologyText
        ∈ handle_note cFailGen cfg0 "2024-03-01" "chatA" "Bought milk 50 at SM"
      ∧ (∃ m, Ev.consoleLog m
          ∈ handle_note cFailGen cfg0 "2024-03-01" "chatA" "Bought milk 50 at SM")
      ∧ sheetFree (handle_note cFailGen cfg0 "2024-03-01" "chatA" "Bought milk 50 at SM") = true
      ∧ sendFree (handle_note cFailGen cfg0 "2024-03-01" "chatA" "Bought milk 50 at SM") = true)
    ∧ (Ev.reply "chatA" photoApologyText
        ∈ handle_receipt_photo cFailGen cfg0 "chatA" true (.ok [0, 1])
      ∧ (∃ m, Ev.consoleLog m
          ∈ handle_receipt_photo cFailGen cfg0 "chatA" true (.ok [0, 1]))
      ∧ sheetFree (handle_receipt_photo cFailGen cfg0 "chatA" true (.ok [0, 1])) = true
      ∧ sendFree (handle_receipt_photo cFailGen cfg0 "chatA" true (.ok [0, 1])) = true) :=
  ⟨(C2_extraction_failure_aborts cFailGen cfg0 "2024-03-01" "chatA" "Bought milk 50 at SM"
      true (.ok [0, 1])).1 (by decide) rfl,
   (C2_extraction_failure_aborts cFailGen cfg0 "2024-03-01" "chatA" "Bought milk 50 at SM"
      true (.ok [0, 1])).2 rfl rfl⟩

/-- The merged `final_data = {**receipt_data, **insights}` of both handlers
(`bot_main.py` lines 38–39 and 72–73). -/
def finalRecord (c : Collab) (rd : PyDict) : PyDict :=
  dictMerge rd (get_receipt_insights c.insightsGen c.loads rd)

/-- Claim C3: when the request reaches persistence and the Sheets append
collaborator fails, the failure is swallowed (no apology is sent, nothing
surfaces to the handler), and the notify collaborator is still invoked
exactly once, after the persistence failure, with the same merged
FinalRecord that was handed to persistence. -/
theorem C3_persistence_failure_swallowed (c : Collab) (cfg : Config) :
    (∀ now chat note t rd e,
      note ≠ "" →
      c.noteGen (notePrompt now note) = .ok t →
      c.loads t = .ok rd →
      c.sheets (rowData (finalRecord c rd)) = .error e →
      Ev.reply chat noteApologyText ∉ handle_note c cfg now chat note
      ∧ sends (handle_note c cfg now chat note)
          = [Ev.sendTelegram cfg.telegramChatId (telegramMessage (finalRecord c rd))]
      ∧ ∃ pre post, handle_note c cfg now chat note
          = pre ++ Ev.consoleLog (sheetErrPre ++ e) :: post
          ∧ Ev.sendTelegram cfg.telegramChatId (telegramMessage (finalRecord c rd)) ∈ post)
    ∧ (∀ chat bs txt ed e,
      c.ocrGen bs = .ok txt →
      c.loads txt = .ok ed →
      c.sheets (rowData (finalRecord c ed)) = .error e →
      Ev.reply chat photoApologyText ∉ handle_receipt_photo c cfg chat true (.ok bs)
      ∧ sends (handle_receipt_photo c cfg chat true (.ok bs))
          = [Ev.sendTelegram cfg.telegramChatId (telegramMessage (finalRecord c ed))]
      ∧ ∃ pre post, handle_receipt_photo c cfg chat true (.ok bs)
          = pre ++ Ev.consoleLog (sheetErrPre ++ e) :: post
          ∧ Ev.sendTelegram cfg.telegramChatId (telegramMessage (finalRecord c ed)) ∈ post) := by
  constructor
  · intro now chat note t rd e hnote hg hl hs
    have hconv : convert_note_to_receipt c.noteGen c.loads now note
        = ([Ev.genCall (notePrompt now note)], .ok rd) := by
      simp [convert_note_to_receipt, hg, hl]
    have hlog : log_to_google_sheet c.sheets (finalRecord c rd)
        = [Ev.consoleLog (sheetErrPre ++ e)] := by
      simp only [log_to_google_sheet]
      rw [hs]
    cases htg : c.tg cfg.telegramChatId (telegramMessage (finalRecord c rd)) with
    | ok u =>
      have hsend : send_telegram_message cfg c.tg (finalRecord c rd)
          = [Ev.sendTelegram cfg.telegramChatId (telegramMessage (finalRecord c rd))] := by
        simp only [send_telegram_message]
        rw [htg]
      have htr : handle_note c cfg now chat note
          = Ev.reply chat noteAckText ::
              ([Ev.genCall (notePrompt now note)]
                ++ [Ev.consoleLog (sheetErrPre ++ e)]
                ++ [Ev.sendTelegram cfg.telegramChatId (telegramMessage (finalRecord c rd))]) := by
        rw [handle_note, if_neg hnote, hconv]
        simp only [finalRecord] at hlog hsend
        simp [finalRecord, hlog, hsend]
      refine ⟨by simp [htr, noteApologyText, noteAckText],
        by simp [htr, sends, isSendTelegram], ?_⟩
      refine ⟨[Ev.reply chat noteAckText, Ev.genCall (notePrompt now note)],
        [Ev.sendTelegram cfg.telegramChatId (telegramMessage (finalRecord c rd))],
        by rw [htr]; rfl, by simp⟩
    | error e2 =>
      have hsend : send_telegram_message cfg c.tg (finalRecord c rd)
          = [Ev.sendTelegram cfg.telegramChatId (telegramMessage (finalRecord c rd)),
             Ev.consoleLog (tgErrPre ++ e2)] := by
        simp only [send_telegram_message]
        rw [htg]
      have htr : handle_note c cfg now chat note
          = Ev.reply chat noteAckText ::
              ([Ev.genCall (notePrompt now note)]
                ++ [Ev.consoleLog (sheetErrPre ++ e)]
                ++ [Ev.sendTelegram cfg.telegramChatId (telegramMessage (finalRecord c rd)),
                    Ev.consoleLog (tgErrPre ++ e2)]) := by
        rw [handle_note, if_neg hnote, hconv]
        simp only [finalRecord] at hlog hsend
        simp [finalRecord, hlog, hsend]
      refine ⟨by simp [htr, noteApologyText, noteAckText],
        by simp [htr, sends, isSendTelegram], ?_⟩
      refine ⟨[Ev.reply chat noteAckText, Ev.genCall (notePrompt now note)],
        [Ev.sendTelegram cfg.telegramChatId (telegramMessage (finalRecord c rd)),
         Ev.consoleLog (tgErrPre ++ e2)],
        by rw [htr]; rfl, by simp⟩
  · intro chat bs txt ed e hocr hl hs
    have hpr : process_receipt_image c.ocrGen bs
        = ([Ev.ocrGenCall ocrPrompt bs], .ok txt) := by
      simp [process_receipt_image, hocr]
    have hlog : log_to_google_sheet c.sheets (finalRecord c ed)
        = [Ev.consoleLog (sheetErrPre ++ e)] := by
      simp only [log_to_google_sheet]
      rw [hs]
    cases htg : c.tg cfg.telegramChatId (telegramMessage (finalRecord c ed)) with
    | ok u =>
      have hsend : send_telegram_message cfg c.tg (finalRecord c ed)
          = [Ev.sendTelegram cfg.telegramChatId (telegramMessage (finalRecord c ed))] := by
        simp only [send_telegram_message]
        rw [htg]
      have htr : handle_receipt_photo c cfg chat true (.ok bs)
          = Ev.reply chat photoAckText ::
              ([Ev.ocrGenCall ocrPrompt bs]
                ++ [Ev.consoleLog (sheetErrPre ++ e)]
                ++ [Ev.sendTelegram cfg.telegramChatId (telegramMessage (finalRecord c ed))]) := by
        rw [handle_receipt_photo.eq_def]
        simp only [finalRecord] at hlog hsend
        simp [finalRecord, hpr, hl, hlog, hsend]
      refine ⟨by simp [htr, photoApologyText, photoAckText],
        by simp [htr, sends, isSendTelegram], ?_⟩
      refine ⟨[Ev.reply chat photoAckText, Ev.ocrGenCall ocrPrompt bs],
        [Ev.sendTelegram cfg.telegramChatId (telegramMessage (finalRecord c ed))],
        by rw [htr]; rfl, by simp⟩
    | error e2 =>
      have hsend : send_telegram_message cfg c.tg (finalRecord c ed)
          = [Ev.sendTelegram cfg.telegramChatId (telegramMessage (finalRecord c ed)),
             Ev.consoleLog (tgErrPre ++ e2)] := by
        simp only [send_telegram_message]
        rw [htg]
      have htr : handle_receipt_photo c cfg chat true (.ok bs)
          = Ev.reply chat photoAckText ::
              ([Ev.ocrGenCall ocrPrompt bs]
                ++ [Ev.consoleLog (sheetErrPre ++ e)]
                ++ [Ev.sendTelegram cfg.telegramChatId (telegramMessage (finalRecord c ed)),
                    Ev.consoleLog (tgErrPre ++ e2)]) := by
        rw [handle_receipt_photo.eq_def]
        simp only [finalRecord] at hlog hsend
        simp [finalRecord, hpr, hl, hlog, hsend]
      refine ⟨by simp [htr, photoApologyText, photoAckText],
        by simp [htr, sends, isSendTelegram], ?_⟩
      refine ⟨[Ev.reply chat photoAckText, Ev.ocrGenCall ocrPrompt bs],
        [Ev.sendTelegram cfg.telegramChatId (telegramMessage (finalRecord c ed)),
         Ev.consoleLog (tgErrPre ++ e2)],
        by rw [htr]; rfl, by simp⟩

/-- Collaborator set whose extraction succeeds with a fixed record, whose
enrichment call fails (so the fallback is used), and whose Sheets append
always fails (used in the persistence-failure witness). -/
def cSheetsFail : Collab where
  noteGen := fun _ => .ok "NOTE_JSON"
  ocrGen := fun _ => .ok "NOTE_JSON"
  insightsGen := fun _ => .error "insights down"
  loads := fun s =>
    if s = "NOTE_JSON" then .ok [("vendor_name", Val.str "SM Supermarket")]
    else .error "JSONDecodeError"
  sheets := fun _ => .error "sheets down"
  tg := fun _ _ => .ok ()

/-- The record extracted by `cSheetsFail` (witness input). -/
def rdW : PyDict := [("vendor_name", Val.str "SM Supermarket")]

theorem C3_persistence_failure_swallowed_witness :
    (Ev.reply "chatA" noteApologyText
        ∉ handle_note cSheetsFail cfg0 "2024-03-01" "chatA" "milk 50"
      ∧ sends (handle_note cSheetsFail cfg0 "2024-03-01" "chatA" "milk 50")
          = [Ev.sendTelegram cfg0.telegramChatId
              (telegramMessage (finalRecord cSheetsFail rdW))]
      ∧ ∃ pre post, handle_note cSheetsFail cfg0 "2024-03-01" "chatA" "milk 50"
          = pre ++ Ev.consoleLog (sheetErrPre ++ "sheets down") :: post
          ∧ Ev.sendTelegram cfg0.telegramChatId
              (telegramMessage (finalRecord cSheetsFail rdW)) ∈ post)
    ∧ (Ev.reply "chatA" photoApologyText
        ∉ handle_receipt_photo cSheetsFail cfg0 "chatA" true (.ok [0, 1])
      ∧ sends (handle_receipt_photo cSheetsFail cfg0 "chatA" true (.ok [0, 1]))
          = [Ev.sendTelegram cfg0.telegramChatId
              (telegramMessage (finalRecord cSheetsFail rdW))]
      ∧ ∃ pre post, handle_receipt_photo cSheetsFail cfg0 "chatA" true (.ok [0, 1])
          = pre ++ Ev.consoleLog (sheetErrPre ++ "sheets down") :: post
          ∧ Ev.sendTelegram cfg0.telegramChatId
              (telegramMessage (finalRecord cSheetsFail rdW)) ∈ post) :=
  ⟨(C3_persistence_failure_swallowed cSheetsFail cfg0).1 "2024-03-01" "chatA" "milk 50"
      "NOTE_JSON" rdW "sheets down" (by decide) rfl rfl rfl,
   (C3_persistence_failure_swallowed cSheetsFail cfg0).2 "chatA" [0, 1]
      "NOTE_JSON" rdW "sheets down" rfl rfl rfl⟩

/-- Claim C9: `send_telegram_message` targets exactly the configured
`TELEGRAM_CHAT_ID`, and the Telegram sends of either handler are identical
whatever chat originated the request (the recipient is never derived from
the incoming event; only the `reply_text` acknowledgments go back to the
originating chat). -/
theorem C9_notification_target_is_config (cfg : Config) :
    (∀ (tg : String → String → Except String Unit) (d : PyDict) (ch msg : String),
      Ev.sendTelegram ch msg ∈ send_telegram_message cfg tg d →
      ch = cfg.telegramChatId)
    ∧ (∀ c now chatA chatB note,
        sends (handle_note c cfg now chatA note)
          = sends (handle_note c cfg now chatB note))
    ∧ (∀ c chatA chatB hasPhoto download,
        sends (handle_receipt_photo c cfg chatA hasPhoto download)
          = sends (handle_receipt_photo c cfg chatB hasPhoto download)) := by
  refine ⟨?_, ?_, ?_⟩
  · intro tg d ch msg hmem
    simp only [send_telegram_message] at hmem
    cases htg : tg cfg.telegramChatId (telegramMessage d) with
    | ok u => simp [htg] at hmem; exact hmem.1
    | error e2 => simp [htg] at hmem; exact hmem.1
  · intro c now chatA chatB note
    by_cases hnote : note = ""
    · simp [handle_note, hnote]
    · rw [handle_note, if_neg hnote, handle_note, if_neg hnote]
      rcases hconv : convert_note_to_receipt c.noteGen c.loads now note with ⟨evs, res⟩
      cases res with
      | error e => simp [sends, isSendTelegram, List.filter_append]
      | ok rd => simp [sends, isSendTelegram, List.filter_append]
  · intro c chatA chatB hasPhoto download
    cases hp : hasPhoto with
    | false => simp [handle_receipt_photo.eq_def]
    | true =>
      rw [handle_receipt_photo.eq_def, handle_receipt_photo.eq_def]
      cases hd : download with
      | error e => simp [sends, isSendTelegram]
      | ok bs =>
        rcases hpr : process_receipt_image c.ocrGen bs with ⟨evs, res⟩
        cases res with
        | error e => simp [hpr, sends, isSendTelegram, List.filter_append]
        | ok txt =>
          cases hl : c.loads txt with
          | error e => simp [hpr, hl, sends, isSendTelegram, List.filter_append]
          | ok ed => simp [hpr, hl, sends, isSendTelegram, List.filter_append]

/-- Always-succeeding Telegram send oracle (witness input). -/
def tgW : String → String → Except String Unit := fun _ _ => .ok ()

theorem C9_notification_target_is_config_witness :
    ("777" : String) = cfg0.telegramChatId
    ∧ sends (handle_note cFailGen cfg0 "2024-03-01" "chatA" "milk 50")
        = sends (handle_note cFailGen cfg0 "2024-03-01" "chatB" "milk 50")
    ∧ sends (handle_receipt_photo cFailGen cfg0 "chatA" true (.ok [0, 1]))
        = sends (handle_receipt_photo cFailGen cfg0 "chatB" true (.ok [0, 1])) :=
  ⟨(C9_notification_target_is_config cfg0).1 tgW [] "777" (telegramMessage [])
      (by simp [send_telegram_message, tgW, cfg0]),
   (C9_notification_target_is_config cfg0).2.1 cFailGen "2024-03-01" "chatA" "chatB" "milk 50",
   (C9_notification_target_is_config cfg0).2.2 cFailGen "chatA" "chatB" true (.ok [0, 1])⟩

/-- The closed category vocabulary offered to the model in the enrichment
prompt (`ocr_logic.py` line 87). -/
def categoryVocab : List String :=
  ["Food & Dining", "Travel", "Office Supplies", "Transportation", "Utilities", "Other"]

/-- An insights dict whose category lies outside the closed vocabulary. -/
def insightsC7 : PyDict :=
  [("category", Val.str "Groceries"), ("memo", Val.str "Weekly groceries run.")]

/-- Generation oracle whose response is plain JSON carrying the
out-of-vocabulary category `Groceries`. -/
def genC7 : String → Except String String :=
  fun _ => .ok "\x7b\"category\": \"Groceries\", \"memo\": \"Weekly groceries run.\"\x7d"

/-- `json.loads` oracle agreeing with the real `json.loads` on the response
above (it parses to `insightsC7`) and raising on any other input. -/
def loadsC7 : String → Except String PyDict :=
  fun s =>
    if s = "\x7b\"category\": \"Groceries\", \"memo\": \"Weekly groceries run.\"\x7d" then
      .ok insightsC7
    else .error "JSONDecodeError"

/-- Claim C7 counterexample: `get_receipt_insights` performs no local
vocabulary validation — when the model answers with the out-of-vocabulary
category `Groceries`, the returned category is `Groceries`, which is not in
the closed vocabulary and is not replaced by `Other`. -/
theorem C7_no_vocabulary_validation_counterexample :
    dget (get_receipt_insights genC7 loadsC7 []) "category" = some (Val.str "Groceries")
    ∧ "Groceries" ∉ categoryVocab
    ∧ dget (get_receipt_insights genC7 loadsC7 []) "category" ≠ some (Val.str "Other") := by
  refine ⟨rfl, by decide, ?_⟩
  intro h
  rw [show dget (get_receipt_insights genC7 loadsC7 []) "category"
      = some (Val.str "Groceries") from rfl] at h
  simp at h

/-- Claim C7 amended: on enrichment parse success the returned category is
exactly whatever the model produced — no local validation constrains it to
the closed vocabulary, and out-of-vocabulary values are passed through
verbatim rather than replaced by `Other`. -/
theorem C7_amended_category_passthrough (gen : String → Except String String)
    (loads : String → Except String PyDict) (d : PyDict) (t : String) (i : PyDict)
    (ht : gen (insightsPrompt d) = .ok t)
    (hi : loads (cleanInsightsResponse t) = .ok i) :
    get_receipt_insights gen loads d = i := by
  simp [get_receipt_insights, ht, hi]

theorem C7_amended_category_passthrough_witness :
    get_receipt_insights genC7 loadsC7 [] = insightsC7 :=
  C7_amended_category_passthrough genC7 loadsC7 []
    "\x7b\"category\": \"Groceries\", \"memo\": \"Weekly groceries run.\"\x7d"
    insightsC7 rfl rfl

set_option maxRecDepth 4000 in
/-- Claim C8 counterexample: the reference date of the text extractor is not
a call-time parameter.  Two runs of `handle_note` with identical call-time
inputs (same collaborators, configuration, originating chat and note text)
but different ambient current dates issue different extractor prompts: the
date embedded in the prompt is `datetime.now()` read inside
`convert_note_to_receipt`, not an argument supplied by the caller (the
source signature is `convert_note_to_receipt(note_text)`). -/
theorem C8_reference_date_not_parameter_counterexample :
    notePrompts (handle_note cFailGen cfg0 "2024-03-01" "chatA" "Bought milk 50 at SM")
      ≠ notePrompts (handle_note cFailGen cfg0 "2024-03-02" "chatA" "Bought milk 50 at SM") := by
  decide

/-- Claim C8 amended: `convert_note_to_receipt` receives only the note text
at call time; the reference date it embeds is the ambient current date.  Its
prompt does encode the four inference policies — use the (ambient) reference
date when no date is stated, resolve a recognizable short vendor alias
(`SM` → `SM Supermarket`), compute the total as the sum of line-item amounts
when no explicit total is stated, and default unspecified quantities to 1 —
and every extractor prompt issued by `handle_note` is exactly the prompt
built from the ambient date and the note. -/
theorem C8_amended_prompt_policies (now note : String) :
    (strContains (notePrompt now note)
        (notePolicyDatePre ++ now ++ notePolicyDatePost) = true
      ∧ strContains (notePrompt now note) notePolicyVendor = true
      ∧ strContains (notePrompt now note) notePolicyTotal = true
      ∧ strContains (notePrompt now note) notePolicyQty = true)
    ∧ (∀ c cfg chat p, Ev.genCall p ∈ handle_note c cfg now chat note →
        p = notePrompt now note) := by
  constructor
  · refine ⟨?_, ?_, ?_, ?_⟩
    · apply strContains_of_split _ _ notePromptIntro
        (notePromptMid0 ++ notePolicyVendor ++ notePromptMid1 ++ notePolicyTotal ++
          notePromptMid2 ++ notePolicyQty ++ notePromptMid3 ++ note ++ notePromptPost)
      simp [notePrompt, String.append_assoc]
    · apply strContains_of_split _ _
        (notePromptIntro ++ (notePolicyDatePre ++ now ++ notePolicyDatePost) ++ notePromptMid0)
        (notePromptMid1 ++ notePolicyTotal ++
          notePromptMid2 ++ notePolicyQty ++ notePromptMid3 ++ note ++ notePromptPost)
      simp [notePrompt, String.append_assoc]
    · apply strContains_of_split _ _
        (notePromptIntro ++ (notePolicyDatePre ++ now ++ notePolicyDatePost) ++
          notePromptMid0 ++ notePolicyVendor ++ notePromptMid1)
        (notePromptMid2 ++ notePolicyQty ++ notePromptMid3 ++ note ++ notePromptPost)
      simp [notePrompt, String.append_assoc]
    · apply strContains_of_split _ _
        (notePromptIntro ++ (notePolicyDatePre ++ now ++ notePolicyDatePost) ++
          notePromptMid0 ++ notePolicyVendor ++ notePromptMid1 ++ notePolicyTotal ++
          notePromptMid2)
        (notePromptMid3 ++ note ++ notePromptPost)
      simp [notePrompt, String.append_assoc]
  · intro c cfg chat p hmem
    by_cases hnote : note = ""
    · simp [handle_note, hnote] at hmem
    · rw [handle_note, if_neg hnote] at hmem
      cases hg : c.noteGen (notePrompt now note) with
      | error e =>
        have hconv : convert_note_to_receipt c.noteGen c.loads now note
            = ([Ev.genCall (notePrompt now note),
                Ev.consoleLog (noteProcErrPre ++ e)], .error e) := by
          simp [convert_note_to_receipt, hg]
        rw [hconv] at hmem
        simp at hmem
        exact hmem
      | ok t =>
        cases hl : c.loads t with
        | error e =>
          have hconv : convert_note_to_receipt c.noteGen c.loads now note
              = ([Ev.genCall (notePrompt now note),
                  Ev.consoleLog (noteProcErrPre ++ e)], .error e) := by
            simp [convert_note_to_receipt, hg, hl]
          rw [hconv] at hmem
          simp at hmem
          exact hmem
        | ok rd =>
          have hconv : convert_note_to_receipt c.noteGen c.loads now note
              = ([Ev.genCall (notePrompt now note)], .ok rd) := by
            simp [convert_note_to_receipt, hg, hl]
          rw [hconv] at hmem
          cases hsh : c.sheets (rowData (dictMerge rd
              (get_receipt_insights c.insightsGen c.loads rd))) with
          | ok u =>
            cases htg : c.tg cfg.telegramChatId (telegramMessage (dictMerge rd
                (get_receipt_insights c.insightsGen c.loads rd))) with
            | ok v =>
              simp [log_to_google_sheet, send_telegram_message, hsh, htg] at hmem
              exact hmem
            | error e2 =>
              simp [log_to_google_sheet, send_telegram_message, hsh, htg] at hmem
              exact hmem
          | error e1 =>
            cases htg : c.tg cfg.telegramChatId (telegramMessage (dictMerge rd
                (get_receipt_insights c.insightsGen c.loads rd))) with
            | ok v =>
              simp [log_to_google_sheet, send_telegram_message, hsh, htg] at hmem
              exact hmem
            | error e2 =>
              simp [log_to_google_sheet, send_telegram_message, hsh, htg] at hmem
              exact hmem

set_option maxRecDepth 4000 in
theorem C8_amended_prompt_policies_witness :
    (strContains (notePrompt "2024-03-01" "Bought milk 50 at SM")
        (notePolicyDatePre ++ "2024-03-01" ++ notePolicyDatePost) = true
      ∧ strContains (notePrompt "2024-03-01" "Bought milk 50 at SM") notePolicyVendor = true
      ∧ strContains (notePrompt "2024-03-01" "Bought milk 50 at SM") notePolicyTotal = true
      ∧ strContains (notePrompt "2024-03-01" "Bought milk 50 at SM") notePolicyQty = true)
    ∧ notePrompt "2024-03-01" "Bought milk 50 at SM"
        = notePrompt "2024-03-01" "Bought milk 50 at SM" :=
  ⟨(C8_amended_prompt_policies "2024-03-01" "Bought milk 50 at SM").1,
   (C8_amended_prompt_policies "2024-03-01" "Bought milk 50 at SM").2
      cFailGen cfg0 "chatA" (notePrompt "2024-03-01" "Bought milk 50 at SM")
      (by simp [handle_note, convert_note_to_receipt, cFailGen])⟩
